import Mathlib

/-!
Verification of the Slack → Expensify receipt bot
(`src/slack_expensify_bot.py`, v2).

The embedding models the observable behaviour of the three code units the
claims are about:

* `fetch_expense`      — the lookup helper (source lines 122–155), as a
  function of the transport response it observes;
* `poll_smarts_scan`   — the polling loop (source lines 159–216), as a
  function of an oracle giving the transport response seen at each attempt;
  the `time.sleep` before each lookup and the fixed message destination
  (channel, thread_ts) have no observable effect on the properties here and
  are dropped;
* `handle_message_events` — the per-file Slack handler (source lines
  220–280), as a function from each file's metadata and environment
  (download response, Expensify create response) to the ordered list of
  observable actions it performs.

Machine integers are modelled as `Int`/`Nat`; the Python format expression
on the completed amount is modelled on integer cents (see `formatDollars`).
-/

namespace SlackExpensifyBot

/-- An expense record as it appears in the `expenses` list of the download
blob. Every field is optional because the code reads the dict with
`.get(key, default)`. The `status` and `errorDetail` fields can be present
on the wire (the spec's LedgerRecord lists them) but the code never reads
them; they are carried here so that claims about explicit-status records can
be stated. -/
structure Expense where
  amount : Option Int := none
  merchant : Option String := none
  created : Option Int := none
  status : Option String := none
  errorDetail : Option String := none
deriving DecidableEq, Repr

/-- Result of parsing the download response body (`resp.json()`): a dict
whose "expenses" key, read with default `[]`, holds the expense list. -/
structure DownloadBlob where
  expenses : Option (List Expense) := none
deriving DecidableEq, Repr

/-- The part of an HTTP response the code inspects: `status_code`, `text`,
and the outcome of `resp.json()` — `none` when the body cannot be parsed as
JSON. -/
structure HttpResponse where
  status_code : Nat := 200
  text : String := ""
  jsonBody : Option DownloadBlob := none
deriving DecidableEq, Repr

/-- The three ways `fetch_expense` can come back to its caller:
it raises `RuntimeError(resp.text)`, returns `None`, or returns the first
expense dict. -/
inductive FetchResult where
  | raised (msg : String)
  | notFound
  | found (e : Expense)
deriving DecidableEq, Repr

/-- `fetch_expense(external_id)` (source lines 122–155) as a function of the
transport response it observes. Non-200 → `raise RuntimeError(resp.text)`;
a body that fails to parse as JSON → log a warning and `return None`;
otherwise the first element of `blob.get("expenses", [])`, or `None` when
that list is empty. The `external_id` argument only shapes the request and
does not influence the result for a given response. -/
def fetch_expense (external_id : String) (resp : HttpResponse) : FetchResult :=
  if resp.status_code ≠ 200 then .raised resp.text
  else
    match resp.jsonBody with
    | none => .notFound
    | some blob =>
      match blob.expenses.getD [] with
      | [] => .notFound
      | e :: _ => .found e

/-- Thousands grouping on a reversed digit list: a separator after every
three digits, counted from the right. -/
def insertCommasRev : List Char → List Char
  | a :: b :: c :: d :: rest => a :: b :: c :: ',' :: insertCommasRev (d :: rest)
  | l => l

/-- Thousands grouping of a digit string. -/
def commaGroup (s : String) : String :=
  String.mk (insertCommasRev s.data.reverse).reverse

/-- The displayed amount: models the Python expression
`f"{amount_cents / 100.0:,.2f}"` (source lines 196 and 202) on integer
cents — two-decimal fixed point with thousands separators. This agrees with
the float path for every cent value whose double-precision quotient rounds
back to the same two decimals, in particular all values the backend can
return. -/
def formatDollars (cents : Int) : String :=
  let n := cents.natAbs
  let sign := if cents < 0 then "-" else ""
  let major := n / 100
  let minor := n % 100
  sign ++ commaGroup (toString major) ++ "." ++
    (if minor < 10 then "0" ++ toString minor else toString minor)

/-- One chat message posted by the polling loop, abstracted to its class and
payload. `completed` carries the merchant shown, the formatted amount
string, and the raw epoch timestamp used for the date (the calendar
rendering is time-zone dependent and not modelled). -/
inductive Event where
  | lookupError (msg : String)
  | pending (attempt maxPolls : Nat)
  | processing (attempt maxPolls : Nat)
  | completed (merchant amountText : String) (createdUnix : Int)
  | timedOut
deriving DecidableEq, Repr

/-- Progress (non-terminal) notifications: the two "keep waiting" messages. -/
def Event.isProgress : Event → Bool
  | .pending _ _ => true
  | .processing _ _ => true
  | _ => false

/-- Terminal notifications: lookup-error, success, and gave-up messages. -/
def Event.isTerminal : Event → Bool
  | .lookupError _ => true
  | .completed _ _ _ => true
  | .timedOut => true
  | _ => false

/-- The lookup-error notification class alone. -/
def Event.isLookupErr : Event → Bool
  | .lookupError _ => true
  | _ => false

/-- What one iteration of the polling loop decides to do:
`fail` — post the lookup-error message and `return`;
`progress` — post a pending/processing message and `continue`;
`done` — post the success message (merchant, formatted amount, date) and
`return`. -/
inductive CycleStep where
  | fail (msg : String)
  | progress (ev : Event)
  | done (merchant amountText : String) (createdUnix : Int)
deriving DecidableEq, Repr

/-- The body of the polling loop (source lines 163–206), as a function of
the transport response observed at this attempt. A raised lookup is the
`except` branch; `None` is the not-yet-visible branch; a record with
`exp.get("amount", 0) == 0` is the still-processing branch; any other
record is the success branch. -/
def loopBody (external_id : String) (resp : HttpResponse) (attempt maxPolls : Nat) :
    CycleStep :=
  match fetch_expense external_id resp with
  | .raised msg => .fail msg
  | .notFound => .progress (.pending attempt maxPolls)
  | .found e =>
    if e.amount.getD 0 = 0 then .progress (.processing attempt maxPolls)
    else
      .done (e.merchant.getD "[merchant unknown]")
        (formatDollars (e.amount.getD 0)) (e.created.getD 0)

/-- The spec's terminal states for one tracking task. The code reaches
`COMPLETED`, `LOOKUP_FAILED` and `TIMED_OUT`; `ERROR` is listed by the spec
and carried here so claims about it can be stated. -/
inductive PollOutcome where
  | COMPLETED
  | ERROR
  | LOOKUP_FAILED
  | TIMED_OUT
deriving DecidableEq, Repr

/-- The observable result of one tracking task: the ordered list of messages
it posted, the terminal state it reached, and how many lookups it
performed. -/
structure PollRun where
  events : List Event
  outcome : PollOutcome
  lookups : Nat
deriving DecidableEq, Repr

/-- The loop `for attempt in range(1, MAX_POLLS + 1)` of `poll_smarts_scan`,
unrolled on the number of iterations left (`fuel`); `attempt` is the
current 1-based attempt number. Falling off the end of the loop posts the
gave-up message (source lines 209–216). -/
def pollAux (oracle : Nat → HttpResponse) (external_id : String)
    (maxPolls attempt fuel : Nat) : PollRun :=
  match fuel with
  | 0 => ⟨[.timedOut], .TIMED_OUT, 0⟩
  | f + 1 =>
    match loopBody external_id (oracle attempt) attempt maxPolls with
    | .fail msg => ⟨[.lookupError msg], .LOOKUP_FAILED, 1⟩
    | .done merch amt c => ⟨[.completed merch amt c], .COMPLETED, 1⟩
    | .progress ev =>
      let rest := pollAux oracle external_id maxPolls (attempt + 1) f
      ⟨ev :: rest.events, rest.outcome, rest.lookups + 1⟩

/-- `poll_smarts_scan(external_id, channel, thread_ts)` (source lines
159–216) as a function of the response oracle. `maxPolls` is the
`MAX_POLLS` configuration value (default 10). The destination
(channel, thread_ts) is fixed for the task's lifetime and every posted
message goes to it, so it is dropped from the model. -/
def poll_smarts_scan (oracle : Nat → HttpResponse) (external_id : String)
    (maxPolls : Nat) : PollRun :=
  pollAux oracle external_id maxPolls 1 maxPolls

/-- Does this attempt's response keep the loop polling? True exactly when
the lookup returns `None` or a record whose amount reads as 0. -/
def progressCycle (external_id : String) (resp : HttpResponse) : Bool :=
  match fetch_expense external_id resp with
  | .raised _ => false
  | .notFound => true
  | .found e => e.amount.getD 0 == 0

/-- `submit_to_expensify` (source lines 72–118) as a function of the
transport response of the create job: a non-200 response raises
`RuntimeError(resp.text)` — modelled as `Except.error resp.text` — and a
200 response returns normally. -/
def submit_to_expensify (resp : HttpResponse) : Except String Unit :=
  if resp.status_code ≠ 200 then .error resp.text else .ok ()

/-- The file-type allow list (source line 57). -/
def VALID_FILETYPES : List String := ["png", "jpg", "jpeg", "pdf"]

/-- The fields of one entry of `event["files"]` that the handler reads.
`filetype` is read with `.get`, hence optional. -/
structure FileInfo where
  filetype : Option String := none
  id : String := ""
  name : String := ""
deriving DecidableEq, Repr

/-- Environment observed while handling one file: the Slack download
response and the Expensify create-job transport response. -/
structure FileEnv where
  download : HttpResponse := {}
  submitResp : HttpResponse := {}
deriving DecidableEq, Repr

/-- The observable actions of the handler, in program order: the failure
replies, the temp-file write and delete, the upload confirmation, and the
spawn of one background tracking task. -/
inductive HandlerAction where
  | sayDownloadFailed (name text : String)
  | writeTemp (name : String)
  | sayUploaded
  | spawnTracker (externalId channel thread : String)
  | saySubmitFailed (name exc : String)
  | unlinkTemp (name : String)
deriving DecidableEq, Repr

/-- `file_info.get("filetype") not in VALID_FILETYPES` check (line 229):
a missing filetype is not in the allow list. -/
def validFiletype (info : FileInfo) : Bool :=
  match info.filetype with
  | some t => VALID_FILETYPES.contains t
  | none => false

/-- One iteration of the handler's per-file loop (source lines 228–280), as
the ordered list of observable actions: skip files outside the allow list;
on download failure reply and move on; otherwise write the temp file, try
the submission — success posts the confirmation and spawns the tracker
keyed by the file name, failure posts the failure reply carrying the raised
text — and the `finally` block deletes the temp file on both paths. -/
def handle_one_file (info : FileInfo) (env : FileEnv) (channel thread : String) :
    List HandlerAction :=
  if validFiletype info = false then []
  else if env.download.status_code ≠ 200 then
    [.sayDownloadFailed info.name env.download.text]
  else
    .writeTemp info.name ::
      match submit_to_expensify env.submitResp with
      | .ok _ =>
        [.sayUploaded, .spawnTracker info.name channel thread,
         .unlinkTemp info.name]
      | .error exc =>
        [.saySubmitFailed info.name exc, .unlinkTemp info.name]

/-- `handle_message_events` (source lines 220–280) over the `files` list of
one message event: the concatenation, in order, of each file's actions. An
event with no files does nothing. -/
def handle_message_events : List (FileInfo × FileEnv) → String → String →
    List HandlerAction
  | [], _, _ => []
  | fe :: rest, channel, thread =>
    handle_one_file fe.1 fe.2 channel thread ++
      handle_message_events rest channel thread

/-- Effect of one action on the set of temp-file names present under
`TMP_DIR`, modelled as a duplicate-free list: `write_bytes` creates the
path (idempotent on the name), `unlink` removes it, everything else leaves
the directory alone. -/
def applyAction (s : List String) : HandlerAction → List String
  | .writeTemp n => if n ∈ s then s else n :: s
  | .unlinkTemp n => s.erase n
  | .sayDownloadFailed _ _ => s
  | .sayUploaded => s
  | .spawnTracker _ _ _ => s
  | .saySubmitFailed _ _ => s

/-- The temp directory after a sequence of actions. -/
def applyActions (acts : List HandlerAction) (s : List String) : List String :=
  acts.foldl applyAction s

/-- Any spawn action. -/
def isSpawn : HandlerAction → Bool
  | .spawnTracker _ _ _ => true
  | _ => false

/-- Spawn of a tracker for one given correlation key. -/
def isSpawnFor (key : String) : HandlerAction → Bool
  | .spawnTracker k _ _ => k == key
  | _ => false

/-- The user-visible submission-failure reply. -/
def isSubmitFailMsg : HandlerAction → Bool
  | .saySubmitFailed _ _ => true
  | _ => false

/-- A file entry on which the handler's submission path fully succeeds:
accepted filetype, download 200, create job 200. -/
def submissionSucceeds (fe : FileInfo × FileEnv) : Bool :=
  validFiletype fe.1 && fe.2.download.status_code == 200 &&
    fe.2.submitResp.status_code == 200

/-- A backend record carrying an explicit ERROR status and error detail, as
the spec's LedgerRecord allows, together with a non-zero scanned amount. -/
def errRecord : Expense :=
  { amount := some 500, merchant := some "Cafe", created := some 0,
    status := some "ERROR", errorDetail := some "OCR failed" }

/-- A successful (200) download response whose expense list holds exactly
`errRecord`. -/
def errResp : HttpResponse :=
  { status_code := 200, text := "", jsonBody := some { expenses := some [errRecord] } }

/-- A successful (200) transport response whose body is not parseable as
JSON. -/
def badJsonResp : HttpResponse :=
  { status_code := 200, text := "<html>", jsonBody := none }

/-- A successful (200) download response that has not indexed the record
yet: its body fails to parse, which the code reads back as not-found. -/
def notFoundResp : HttpResponse := {}

/-- A record still being scanned: amount 0. -/
def processingRecord : Expense := { amount := some 0 }

/-- A download response holding only `processingRecord`. -/
def processingResp : HttpResponse :=
  { status_code := 200, text := "", jsonBody := some { expenses := some [processingRecord] } }

/-- A non-200 transport response, as a failing lookup or a rejected
submission would observe. -/
def failResp : HttpResponse := { status_code := 500, text := "boom" }

/-- A file entry the handler accepts: filetype on the allow list. -/
def okFile : FileInfo := { filetype := some "png", id := "F1", name := "r.png" }

/-- Environment in which download and submission both succeed. -/
def okEnv : FileEnv :=
  { download := { status_code := 200 }, submitResp := { status_code := 200 } }

/-- Environment in which the download succeeds but the Expensify create job
is rejected. -/
def submitFailEnv : FileEnv :=
  { download := { status_code := 200 }, submitResp := failResp }

/-! ## Helper lemmas about the polling loop -/

/-- Whatever the loop body decides to keep waiting on, the message it posts
is a progress notification. -/
theorem loopBody_progress_isProgress (external_id : String) (resp : HttpResponse)
    (a m : Nat) (ev : Event) (h : loopBody external_id resp a m = .progress ev) :
    ev.isProgress = true := by
  unfold loopBody at h
  split at h
  · exact CycleStep.noConfusion h
  · injection h with h'
    subst h'
    rfl
  · split at h
    · injection h with h'
      subst h'
      rfl
    · exact CycleStep.noConfusion h

/-- A cycle classified as still-waiting makes the loop body post a progress
message and continue. -/
theorem progressCycle_loopBody (external_id : String) (resp : HttpResponse)
    (a m : Nat) (h : progressCycle external_id resp = true) :
    ∃ ev, loopBody external_id resp a m = .progress ev ∧ ev.isProgress = true := by
  cases hf : fetch_expense external_id resp with
  | raised msg => simp [progressCycle, hf] at h
  | notFound => exact ⟨.pending a m, by simp [loopBody, hf], rfl⟩
  | found e =>
    simp only [progressCycle, hf, beq_iff_eq] at h
    exact ⟨.processing a m, by simp [loopBody, hf, h], rfl⟩

/-- Every run of the polling loop posts a possibly empty block of progress
messages followed by exactly one terminal message. -/
theorem pollAux_shape (oracle : Nat → HttpResponse) (external_id : String) (m : Nat) :
    ∀ (f a : Nat), ∃ ps t, (pollAux oracle external_id m a f).events = ps ++ [t] ∧
      (∀ p ∈ ps, p.isProgress = true) ∧ t.isTerminal = true := by
  intro f
  induction f with
  | zero =>
    intro a
    exact ⟨[], .timedOut, rfl, by simp, rfl⟩
  | succ f ih =>
    intro a
    cases hb : loopBody external_id (oracle a) a m with
    | fail msg =>
      exact ⟨[], .lookupError msg, by simp [pollAux, hb], by simp, rfl⟩
    | done merch amt c =>
      exact ⟨[], .completed merch amt c, by simp [pollAux, hb], by simp, rfl⟩
    | progress ev =>
      obtain ⟨ps, t, h1, h2, h3⟩ := ih (a + 1)
      refine ⟨ev :: ps, t, by simp [pollAux, hb, h1], ?_, h3⟩
      intro p hp
      cases hp with
      | head => exact loopBody_progress_isProgress external_id (oracle a) a m ev hb
      | tail _ ht => exact h2 p ht

/-- If every remaining cycle keeps waiting, the loop runs all of them,
posting one progress message each, and then times out. -/
theorem pollAux_all_progress (oracle : Nat → HttpResponse) (external_id : String)
    (m : Nat) :
    ∀ (f a : Nat),
      (∀ i, a ≤ i → i < a + f → progressCycle external_id (oracle i) = true) →
      ∃ ps, pollAux oracle external_id m a f = ⟨ps ++ [.timedOut], .TIMED_OUT, f⟩ ∧
        ps.length = f ∧ (∀ p ∈ ps, p.isProgress = true) := by
  intro f
  induction f with
  | zero =>
    intro a _
    exact ⟨[], rfl, rfl, by simp⟩
  | succ f ih =>
    intro a hall
    have ha : progressCycle external_id (oracle a) = true := hall a le_rfl (by omega)
    obtain ⟨ev, hev, hprog⟩ := progressCycle_loopBody external_id (oracle a) a m ha
    obtain ⟨ps, heq, hlen, hps⟩ := ih (a + 1) (fun i hi1 hi2 => hall i (by omega) (by omega))
    refine ⟨ev :: ps, by simp [pollAux, hev, heq], by simp [hlen], ?_⟩
    intro p hp
    cases hp with
    | head => exact hprog
    | tail _ ht => exact hps p ht

/-- If the first `j` cycles keep waiting and cycle `a + j` raises, the loop
posts `j` progress messages, then the lookup-error message, and stops after
`j + 1` lookups in LOOKUP_FAILED. -/
theorem pollAux_error_after (oracle : Nat → HttpResponse) (external_id : String)
    (m : Nat) (msg : String) :
    ∀ (j : Nat), ∀ (f a : Nat), j < f →
      (∀ i, a ≤ i → i < a + j → progressCycle external_id (oracle i) = true) →
      fetch_expense external_id (oracle (a + j)) = .raised msg →
      ∃ ps, pollAux oracle external_id m a f =
          ⟨ps ++ [.lookupError msg], .LOOKUP_FAILED, j + 1⟩ ∧
        ps.length = j ∧ (∀ p ∈ ps, p.isProgress = true) := by
  intro j
  induction j with
  | zero =>
    intro f a hjf _ hraised
    obtain ⟨f', rfl⟩ : ∃ f', f = f' + 1 := ⟨f - 1, by omega⟩
    rw [Nat.add_zero] at hraised
    have hb : loopBody external_id (oracle a) a m = .fail msg := by
      simp [loopBody, hraised]
    exact ⟨[], by simp [pollAux, hb], rfl, by simp⟩
  | succ j ih =>
    intro f a hjf hall hraised
    obtain ⟨f', rfl⟩ : ∃ f', f = f' + 1 := ⟨f - 1, by omega⟩
    have ha : progressCycle external_id (oracle a) = true := hall a le_rfl (by omega)
    obtain ⟨ev, hev, hprog⟩ := progressCycle_loopBody external_id (oracle a) a m ha
    have hraised' : fetch_expense external_id (oracle (a + 1 + j)) = .raised msg := by
      rw [show a + 1 + j = a + (j + 1) from by omega]
      exact hraised
    obtain ⟨ps, heq, hlen, hps⟩ := ih f' (a + 1) (by omega)
      (fun i hi1 hi2 => hall i (by omega) (by omega)) hraised'
    refine ⟨ev :: ps, by simp [pollAux, hev, heq], by simp [hlen], ?_⟩
    intro p hp
    cases hp with
    | head => exact hprog
    | tail _ ht => exact hps p ht

/-- A progress message is not a lookup-error message. -/
theorem isProgress_not_isLookupErr (ev : Event) (h : ev.isProgress = true) :
    ev.isLookupErr = false := by
  cases ev <;> simp_all [Event.isProgress, Event.isLookupErr]

/-- A progress message is not a terminal message. -/
theorem isProgress_not_isTerminal (ev : Event) (h : ev.isProgress = true) :
    ev.isTerminal = false := by
  cases ev <;> simp_all [Event.isProgress, Event.isTerminal]

/-! ## The claims -/

/-- C4: for every response oracle and retry budget, the tracking task
reaches exactly one of the four terminal states COMPLETED, ERROR,
LOOKUP_FAILED, TIMED_OUT, and its message trace contains exactly one
terminal notification, which is its final message. -/
theorem c4_exactly_one_terminal_notification (oracle : Nat → HttpResponse)
    (external_id : String) (maxPolls : Nat) :
    ((poll_smarts_scan oracle external_id maxPolls).events.countP Event.isTerminal = 1) ∧
    (∃ t, (poll_smarts_scan oracle external_id maxPolls).events.getLast? = some t ∧
      t.isTerminal = true) ∧
    ((poll_smarts_scan oracle external_id maxPolls).outcome = .COMPLETED ∨
     (poll_smarts_scan oracle external_id maxPolls).outcome = .ERROR ∨
     (poll_smarts_scan oracle external_id maxPolls).outcome = .LOOKUP_FAILED ∨
     (poll_smarts_scan oracle external_id maxPolls).outcome = .TIMED_OUT) := by
  obtain ⟨ps, t, h1, h2, h3⟩ := pollAux_shape oracle external_id maxPolls maxPolls 1
  unfold poll_smarts_scan
  refine ⟨?_, ⟨t, ?_, h3⟩, ?_⟩
  · rw [h1, List.countP_append]
    have hz : ps.countP Event.isTerminal = 0 :=
      List.countP_eq_zero.mpr fun p hp => by simp [isProgress_not_isTerminal p (h2 p hp)]
    simp [hz, h3]
  · rw [h1]
    exact List.getLast?_concat _
  · cases ho : (pollAux oracle external_id maxPolls 1 maxPolls).outcome
    · exact Or.inl rfl
    · exact Or.inr (Or.inl rfl)
    · exact Or.inr (Or.inr (Or.inl rfl))
    · exact Or.inr (Or.inr (Or.inr rfl))

/-- C5: with retry budget `maxPolls = N` and every cycle observing a
not-found result or a zero-amount (still processing) record, the tracker
performs exactly N lookups, emits exactly N progress notifications (one per
cycle), ends its trace with the single timeout notification, and terminates
in TIMED_OUT with no further activity. -/
theorem c5_all_pending_times_out (oracle : Nat → HttpResponse) (external_id : String)
    (maxPolls : Nat)
    (hall : ∀ i, 1 ≤ i → i ≤ maxPolls → progressCycle external_id (oracle i) = true) :
    (poll_smarts_scan oracle external_id maxPolls).lookups = maxPolls ∧
    (poll_smarts_scan oracle external_id maxPolls).events.countP Event.isProgress = maxPolls ∧
    (poll_smarts_scan oracle external_id maxPolls).events.getLast? = some .timedOut ∧
    (poll_smarts_scan oracle external_id maxPolls).outcome = .TIMED_OUT ∧
    (poll_smarts_scan oracle external_id maxPolls).events.length = maxPolls + 1 := by
  obtain ⟨ps, heq, hlen, hps⟩ := pollAux_all_progress oracle external_id maxPolls maxPolls 1
    (fun i hi1 hi2 => hall i hi1 (by omega))
  unfold poll_smarts_scan
  rw [heq]
  refine ⟨rfl, ?_, List.getLast?_concat _, rfl, by simp [hlen]⟩
  rw [List.countP_append]
  have hfull : ps.countP Event.isProgress = ps.length :=
    List.countP_eq_length.mpr fun p hp => hps p hp
  simp [hfull, hlen, Event.isProgress]

/-- C5 witness: with `maxPolls = 3` and every lookup answering not-found,
the tracker performs 3 lookups and posts 3 progress messages. -/
theorem c5_witness :
    (∀ i, 1 ≤ i → i ≤ 3 → progressCycle "r.png" ((fun _ => notFoundResp) i) = true) ∧
    (poll_smarts_scan (fun _ => notFoundResp) "r.png" 3).lookups = 3 ∧
    (poll_smarts_scan (fun _ => notFoundResp) "r.png" 3).events.countP Event.isProgress = 3 ∧
    (poll_smarts_scan (fun _ => notFoundResp) "r.png" 3).outcome = .TIMED_OUT := by
  have h : ∀ i, 1 ≤ i → i ≤ 3 → progressCycle "r.png" ((fun _ => notFoundResp) i) = true :=
    fun _ _ _ => rfl
  have hc := c5_all_pending_times_out (fun _ => notFoundResp) "r.png" 3 h
  exact ⟨h, hc.1, hc.2.1, hc.2.2.2.1⟩

/-- C6: if the first `k - 1` cycles keep waiting and the lookup at cycle
`k ≤ maxPolls` raises, the tracker posts exactly one lookup-error
notification as its final message, ends in LOOKUP_FAILED, and performs
exactly `k` lookups — none after the failure, regardless of the remaining
budget. -/
theorem c6_lookup_error_is_terminal (oracle : Nat → HttpResponse)
    (external_id msg : String) (maxPolls k : Nat) (hk1 : 1 ≤ k) (hkm : k ≤ maxPolls)
    (hprev : ∀ i, 1 ≤ i → i < k → progressCycle external_id (oracle i) = true)
    (herr : fetch_expense external_id (oracle k) = .raised msg) :
    (poll_smarts_scan oracle external_id maxPolls).outcome = .LOOKUP_FAILED ∧
    (poll_smarts_scan oracle external_id maxPolls).lookups = k ∧
    (poll_smarts_scan oracle external_id maxPolls).events.countP Event.isLookupErr = 1 ∧
    (poll_smarts_scan oracle external_id maxPolls).events.getLast? =
      some (.lookupError msg) := by
  obtain ⟨ps, heq, hlen, hps⟩ := pollAux_error_after oracle external_id maxPolls msg
    (k - 1) maxPolls 1 (by omega) (fun i hi1 hi2 => hprev i hi1 (by omega))
    (by rw [show 1 + (k - 1) = k from by omega]; exact herr)
  unfold poll_smarts_scan
  rw [heq]
  refine ⟨rfl, by simp; omega, ?_, List.getLast?_concat _⟩
  rw [List.countP_append]
  have hz : ps.countP Event.isLookupErr = 0 :=
    List.countP_eq_zero.mpr fun p hp => by simp [isProgress_not_isLookupErr p (hps p hp)]
  simp [hz, Event.isLookupErr]

/-- C6 witness: a transport failure on the very first attempt with budget
10 yields one lookup performed, one error notification, LOOKUP_FAILED. -/
theorem c6_witness :
    fetch_expense "r.png" ((fun _ => failResp) 1) = .raised "boom" ∧
    (poll_smarts_scan (fun _ => failResp) "r.png" 10).outcome = .LOOKUP_FAILED ∧
    (poll_smarts_scan (fun _ => failResp) "r.png" 10).lookups = 1 ∧
    (poll_smarts_scan (fun _ => failResp) "r.png" 10).events.countP Event.isLookupErr = 1 := by
  have hc := c6_lookup_error_is_terminal (fun _ => failResp) "r.png" "boom" 10 1
    le_rfl (by omega) (fun i hi1 hi2 => absurd hi1 (by omega)) rfl
  exact ⟨rfl, hc.1, hc.2.1, hc.2.2.1⟩

/-- C1 counterexample: a looked-up record carrying an explicit
status = ERROR with an errorDetail, and a non-zero amount, makes the
tracker post the success message and terminate in COMPLETED — no error
event carrying the errorDetail is emitted and the ERROR state is not
reached. -/
theorem c1_counterexample :
    errRecord.status = some "ERROR" ∧
    errRecord.errorDetail = some "OCR failed" ∧
    fetch_expense "r.png" errResp = .found errRecord ∧
    (poll_smarts_scan (fun _ => errResp) "r.png" 10).events =
      [.completed "Cafe" "5.00" 0] ∧
    (poll_smarts_scan (fun _ => errResp) "r.png" 10).outcome = .COMPLETED ∧
    (poll_smarts_scan (fun _ => errResp) "r.png" 10).outcome ≠ .ERROR := by
  refine ⟨rfl, rfl, rfl, rfl, rfl, by decide⟩

/-- C1 (amended): the code never inspects a status or errorDetail field; a
looked-up record is classified by amount alone — amount 0 posts a progress
message and keeps polling, a non-zero amount posts the success message and
terminates in COMPLETED — even when the record carries an explicit ERROR
status. The spec's ERROR branch does not exist in the code and its terminal
state is unreachable. -/
theorem c1_amended_amount_only_classification (external_id : String)
    (resp : HttpResponse) (e : Expense) (a m : Nat)
    (hf : fetch_expense external_id resp = .found e) :
    (e.amount.getD 0 = 0 →
      loopBody external_id resp a m = .progress (.processing a m)) ∧
    (e.amount.getD 0 ≠ 0 →
      loopBody external_id resp a m =
        .done (e.merchant.getD "[merchant unknown]")
          (formatDollars (e.amount.getD 0)) (e.created.getD 0)) := by
  constructor
  · intro h
    simp [loopBody, hf, h]
  · intro h
    simp [loopBody, hf, h]

/-- C1 amended witness: the ERROR-status record with amount 500 is routed
to the success branch and displayed as "5.00". -/
theorem c1_amended_witness :
    fetch_expense "r.png" errResp = .found errRecord ∧
    loopBody "r.png" errResp 1 10 = .done "Cafe" "5.00" 0 := by
  refine ⟨rfl, ?_⟩
  exact (c1_amended_amount_only_classification "r.png" errResp errRecord 1 10 rfl).2
    (by decide)

/-- C2 counterexample: a 200 response whose body cannot be parsed is
returned as not-found, and the tracker treats that cycle as a pending one
and keeps polling until timeout — no lookup-error notification is ever
posted. -/
theorem c2_counterexample :
    badJsonResp.status_code = 200 ∧
    badJsonResp.jsonBody = none ∧
    fetch_expense "r.png" badJsonResp = .notFound ∧
    (poll_smarts_scan (fun _ => badJsonResp) "r.png" 2).events =
      [.pending 1 2, .pending 2 2, .timedOut] ∧
    (poll_smarts_scan (fun _ => badJsonResp) "r.png" 2).events.countP
      Event.isLookupErr = 0 ∧
    (poll_smarts_scan (fun _ => badJsonResp) "r.png" 2).outcome = .TIMED_OUT :=
  ⟨rfl, rfl, rfl, rfl, rfl, rfl⟩

/-- C2 (amended): only a non-success transport response raises a
LookupError that is reported upward and ends the tracker; a success
response whose body cannot be parsed as the expected structured format is
silently converted to a not-found result, so that cycle posts a pending
progress message and polling continues. -/
theorem c2_amended_parse_failure_is_not_found (external_id : String)
    (resp : HttpResponse) (a m : Nat) :
    (resp.status_code = 200 → resp.jsonBody = none →
      fetch_expense external_id resp = .notFound ∧
      loopBody external_id resp a m = .progress (.pending a m)) ∧
    (resp.status_code ≠ 200 →
      fetch_expense external_id resp = .raised resp.text ∧
      loopBody external_id resp a m = .fail resp.text) := by
  constructor
  · intro h200 hnone
    have hf : fetch_expense external_id resp = .notFound := by
      simp [fetch_expense, h200, hnone]
    exact ⟨hf, by simp [loopBody, hf]⟩
  · intro hne
    have hf : fetch_expense external_id resp = .raised resp.text := by
      simp [fetch_expense, hne]
    exact ⟨hf, by simp [loopBody, hf]⟩

/-- C2 amended witness: the unparseable 200 response is read back as
not-found and the cycle posts a pending message. -/
theorem c2_amended_witness :
    fetch_expense "r.png" badJsonResp = .notFound ∧
    loopBody "r.png" badJsonResp 1 10 = .progress (.pending 1 10) :=
  (c2_amended_parse_failure_is_not_found "r.png" badJsonResp 1 10).1 rfl rfl

/-- C3 counterexample: two entries of one message event with the same file
name — hence the same correlation key — both submitted successfully, spawn
two tracking tasks for that key. -/
theorem c3_counterexample :
    (handle_message_events [(okFile, okEnv), (okFile, okEnv)] "C" "T").countP
      (isSpawnFor "r.png") = 2 := by
  decide

/-- Per file entry, the handler spawns a tracker exactly when the filetype
is accepted, the download succeeds, and the create job succeeds. -/
theorem handle_one_file_spawn_count (info : FileInfo) (env : FileEnv)
    (channel thread : String) :
    (handle_one_file info env channel thread).countP isSpawn =
      if submissionSucceeds (info, env) then 1 else 0 := by
  by_cases h1 : validFiletype info = true
  · by_cases h2 : env.download.status_code = 200
    · by_cases h3 : env.submitResp.status_code = 200
      · simp [handle_one_file, submissionSucceeds, submit_to_expensify, h1, h2, h3,
          isSpawn, List.countP_cons]
      · simp [handle_one_file, submissionSucceeds, submit_to_expensify, h1, h2, h3,
          isSpawn, List.countP_cons]
    · simp [handle_one_file, submissionSucceeds, h1, h2, isSpawn, List.countP_cons]
  · simp [handle_one_file, submissionSucceeds,
      Bool.not_eq_true _ ▸ eq_false_of_ne_true h1, isSpawn]

/-- C3 (amended): the handler spawns exactly one tracking task per file
entry whose submission path succeeds, with no per-key bookkeeping — so a
second successful submission carrying the same correlation key spawns a
second concurrent tracker. -/
theorem c3_amended_one_spawn_per_success (files : List (FileInfo × FileEnv))
    (channel thread : String) :
    (handle_message_events files channel thread).countP isSpawn =
      (files.filter submissionSucceeds).length := by
  induction files with
  | nil => rfl
  | cons fe rest ih =>
    rw [show handle_message_events (fe :: rest) channel thread =
      handle_one_file fe.1 fe.2 channel thread ++
        handle_message_events rest channel thread from rfl]
    rw [List.countP_append, ih, handle_one_file_spawn_count, List.filter_cons]
    by_cases h : submissionSucceeds fe = true
    · simp [h]
      omega
    · simp [h]

/-- C7: amountMinorUnits 12345 is displayed as "123.45" (minor units to
major units, two decimals, thousands separators), and a fetched record
whose amount reads as 0 is classified as still processing — the loop posts
the processing progress message for it and never reaches the success
formatter. -/
theorem c7_amount_formatting :
    formatDollars 12345 = "123.45" ∧
    ∀ (external_id : String) (resp : HttpResponse) (e : Expense) (a m : Nat),
      fetch_expense external_id resp = .found e → e.amount.getD 0 = 0 →
      loopBody external_id resp a m = .progress (.processing a m) := by
  refine ⟨by decide, ?_⟩
  intro external_id resp e a m hf h0
  simp [loopBody, hf, h0]

/-- C7 witness: a concrete zero-amount record is routed to the processing
branch, not the success formatter. -/
theorem c7_witness :
    fetch_expense "r.png" processingResp = .found processingRecord ∧
    loopBody "r.png" processingResp 1 10 = .progress (.processing 1 10) :=
  ⟨rfl, c7_amount_formatting.2 "r.png" processingResp processingRecord 1 10 rfl rfl⟩

/-- C8: a non-success create-job response makes the submission fail
carrying the backend's raw diagnostic text, and the handler then posts
exactly one user-visible failure reply carrying that text, spawns no
tracking task, and still removes the temp file. -/
theorem c8_submission_failure_no_tracker (info : FileInfo) (env : FileEnv)
    (channel thread : String) (hv : validFiletype info = true)
    (hd : env.download.status_code = 200) (hs : env.submitResp.status_code ≠ 200) :
    submit_to_expensify env.submitResp = .error env.submitResp.text ∧
    handle_one_file info env channel thread =
      [.writeTemp info.name, .saySubmitFailed info.name env.submitResp.text,
       .unlinkTemp info.name] ∧
    (handle_one_file info env channel thread).countP isSubmitFailMsg = 1 ∧
    (handle_one_file info env channel thread).countP isSpawn = 0 := by
  have hsub : submit_to_expensify env.submitResp = .error env.submitResp.text := by
    simp [submit_to_expensify, hs]
  have hh : handle_one_file info env channel thread =
      [.writeTemp info.name, .saySubmitFailed info.name env.submitResp.text,
       .unlinkTemp info.name] := by
    simp [handle_one_file, hv, hd, hsub]
  refine ⟨hsub, hh, ?_, ?_⟩ <;> rw [hh] <;> rfl

/-- C8 witness: a rejected create job ("boom") yields exactly the failure
reply carrying "boom" and no tracker spawn. -/
theorem c8_witness :
    validFiletype okFile = true ∧
    handle_one_file okFile submitFailEnv "C" "T" =
      [.writeTemp "r.png", .saySubmitFailed "r.png" "boom", .unlinkTemp "r.png"] := by
  refine ⟨rfl, ?_⟩
  exact (c8_submission_failure_no_tracker okFile submitFailEnv "C" "T" rfl rfl
    (by decide)).2.1

/-- C9: the lookup is a deterministic, side-effect-free function of the
backend response: while the response is unchanged, every one of n repeated
calls returns the identical record value, and the result does not depend on
which correlation key the call was made with. -/
theorem c9_lookup_deterministic (id1 id2 : String) (resp : HttpResponse) (n : Nat) :
    fetch_expense id1 resp = fetch_expense id2 resp ∧
    (List.replicate n resp).map (fetch_expense id1) =
      List.replicate n (fetch_expense id1 resp) :=
  ⟨rfl, List.map_replicate ..⟩

/-- C10: for every accepted file whose download succeeds, the temp file the
handler writes is deleted again before the handler moves on, on the
submission-success and submission-failure paths alike: the final action is
the unlink, and the temp directory afterwards is the initial one with the
file's name removed — no temporary receipt file outlives its handling. -/
theorem c10_temp_file_never_outlives (info : FileInfo) (env : FileEnv)
    (channel thread : String) (s : List String) (hv : validFiletype info = true)
    (hd : env.download.status_code = 200) :
    applyActions (handle_one_file info env channel thread) s = s.erase info.name ∧
    (handle_one_file info env channel thread).getLast? =
      some (.unlinkTemp info.name) ∧
    (s.Nodup → info.name ∉ applyActions (handle_one_file info env channel thread) s) := by
  have hmain : applyActions (handle_one_file info env channel thread) s =
      s.erase info.name ∧
      (handle_one_file info env channel thread).getLast? =
        some (.unlinkTemp info.name) := by
    cases hsub : submit_to_expensify env.submitResp with
    | ok u =>
      have hh : handle_one_file info env channel thread =
          [.writeTemp info.name, .sayUploaded,
           .spawnTracker info.name channel thread, .unlinkTemp info.name] := by
        simp [handle_one_file, hv, hd, hsub]
      rw [hh]
      refine ⟨?_, rfl⟩
      by_cases hm : info.name ∈ s
      · simp [applyActions, applyAction, hm]
      · simp [applyActions, applyAction, hm, List.erase_cons_head,
          List.erase_of_not_mem hm]
    | error exc =>
      have hh : handle_one_file info env channel thread =
          [.writeTemp info.name, .saySubmitFailed info.name exc,
           .unlinkTemp info.name] := by
        simp [handle_one_file, hv, hd, hsub]
      rw [hh]
      refine ⟨?_, rfl⟩
      by_cases hm : info.name ∈ s
      · simp [applyActions, applyAction, hm]
      · simp [applyActions, applyAction, hm, List.erase_cons_head,
          List.erase_of_not_mem hm]
  refine ⟨hmain.1, hmain.2, fun hnd hmem => ?_⟩
  rw [hmain.1] at hmem
  exact absurd rfl ((List.Nodup.mem_erase_iff hnd).1 hmem).1

/-- C10 witness: handling an accepted, downloaded file over an empty temp
directory leaves the directory empty and ends with the unlink action. -/
theorem c10_witness :
    applyActions (handle_one_file okFile okEnv "C" "T") [] = [] ∧
    (handle_one_file okFile okEnv "C" "T").getLast? = some (.unlinkTemp "r.png") := by
  have h := c10_temp_file_never_outlives okFile okEnv "C" "T" [] rfl rfl
  exact ⟨h.1, h.2.1⟩

end SlackExpensifyBot
